import Mathlib

/-!
Verification of the entity-synchronization and feed-request subsystem of
google-spreadsheet-nextra, a TypeScript client for the Google Sheets
XML/Atom feed API.

JavaScript strings are modelled as `List Char`.  Each definition is a
direct translation of the corresponding function in the TypeScript
source (src/util.ts, src/SpreadsheetCell.ts, src/SpreadsheetRow.ts,
src/SpreadsheetWorksheet.ts, src/GoogleSpreadsheet.ts); behaviour of
external collaborators (the XML parser xml2js, Node string builtins)
is modelled at the interface boundary described by the specification.
-/

/-- Character list of a string literal (JS strings are char sequences). -/
def chars (s : String) : List Char := s.data

/-- Model of `String.prototype.replace(/c/g, r)` for a single-character
pattern `c`: every occurrence of the character is replaced by `r`.
For a one-character pattern the JS global replace is exactly this
character-wise expansion. -/
def replaceAllChar (c : Char) (r : List Char) : List Char → List Char
  | [] => []
  | x :: t => (if x = c then r else [x]) ++ replaceAllChar c r t

/-- Model of `xmlSafeValue` (src/util.ts line 9): the chained global
replaces `&`→`&amp;`, `<`→`&lt;`, `>`→`&gt;`, `"`→`&quot;`,
newline→`&#10;`, carriage return→`&#13;`, applied in source order
(the `&` pass runs first, innermost here).  The
`undefined/null → ''` guard is outside the string domain modelled. -/
def xmlSafeValue (s : List Char) : List Char :=
  replaceAllChar '\r' (chars "&#13;")
    (replaceAllChar '\n' (chars "&#10;")
      (replaceAllChar '"' (chars "&quot;")
        (replaceAllChar '>' (chars "&gt;")
          (replaceAllChar '<' (chars "&lt;")
            (replaceAllChar '&' (chars "&amp;") s)))))

/-- Per-character escape table equivalent to the chained replaces of
`xmlSafeValue`; used only to structure the round-trip proof. -/
def escChar (c : Char) : List Char :=
  if c = '&' then chars "&amp;"
  else if c = '<' then chars "&lt;"
  else if c = '>' then chars "&gt;"
  else if c = '"' then chars "&quot;"
  else if c = '\n' then chars "&#10;"
  else if c = '\r' then chars "&#13;"
  else [c]

/-- Modelled from the spec: the XML parser collaborator's standard entity
unescaping (the xml2js/sax engine is external, specified only at its
interface).  Given the text following an `&`, recognise one of the six
entities produced by `xmlSafeValue` and return the decoded character
together with the rest of the input. -/
def unescAfterAmp : List Char → Option (Char × List Char) := fun t =>
  match t with
  | 'a' :: 'm' :: 'p' :: ';' :: r => some ('&', r)
  | 'l' :: 't' :: ';' :: r => some ('<', r)
  | 'g' :: 't' :: ';' :: r => some ('>', r)
  | 'q' :: 'u' :: 'o' :: 't' :: ';' :: r => some ('"', r)
  | '#' :: '1' :: '0' :: ';' :: r => some ('\n', r)
  | '#' :: '1' :: '3' :: ';' :: r => some ('\r', r)
  | _ => none

/-- Fueled scanner for `unescape`; the fuel is only a structural-recursion
device, `unescape` supplies `l.length` which always suffices. -/
def unescGo : Nat → List Char → List Char
  | _, [] => []
  | 0, c :: t => c :: t
  | fuel + 1, c :: t =>
    if c = '&' then
      match unescAfterAmp t with
      | some (ch, r) => ch :: unescGo fuel r
      | none => '&' :: unescGo fuel t
    else c :: unescGo fuel t

/-- Modelled from the spec: one left-to-right pass of standard XML entity
unescaping, as the parser collaborator performs on text nodes. -/
def unescape (l : List Char) : List Char := unescGo l.length l

/-- Model of the character class `[\s_]` of `xmlSafeColumnName`
(src/util.ts line 16): the ECMAScript whitespace class `\s` (tab, line
feed, vertical tab, form feed, carriage return, space, NBSP, BOM, and
the Unicode space separators) together with the underscore (code 95). -/
def removedByColumnRegex (c : Char) : Bool :=
  c.toNat = 9 || c.toNat = 10 || c.toNat = 11 || c.toNat = 12 ||
  c.toNat = 13 || c.toNat = 32 || c.toNat = 160 || c.toNat = 65279 ||
  c.toNat = 5760 || (8192 ≤ c.toNat && c.toNat ≤ 8202) ||
  c.toNat = 8232 || c.toNat = 8233 || c.toNat = 8239 ||
  c.toNat = 8287 || c.toNat = 12288 || c.toNat = 95

/-- Model of `xmlSafeColumnName` (src/util.ts line 16):
`!val ? '' : String(val).replace(/[\s_]+/g, '').toLowerCase()`.
Replacing every run of `[\s_]` characters by the empty string is the
same as dropping every such character.  The collaborator
`String.prototype.toLowerCase` is modelled by `Char.toLower`, which
agrees with it on the code points column names are built from. -/
def xmlSafeColumnName (s : List Char) : List Char :=
  if s = [] then []
  else ((s.filter fun c => !removedByColumnRegex c).map Char.toLower)

/-- Decimal representation of a natural number, as JS template literals
interpolate counts and coordinates. -/
def natChars (n : Nat) : List Char := (Nat.repr n).data

/-- First index `i ≥ start` at which `pat` occurs in the remaining list
(the scan has already discarded `start` characters); `none` when `pat`
does not occur.  Models the search underlying `String.prototype.replace`
and `String.prototype.includes`. -/
def findSubGo (pat : List Char) : List Char → Nat → Option Nat
  | l, i =>
    if pat.isPrefixOf l then some i
    else
      match l with
      | [] => none
      | _ :: t => findSubGo pat t (i + 1)

/-- Model of `String.prototype.includes`. -/
def includesSub (s pat : List Char) : Bool := (findSubGo pat s 0).isSome

/-- The slice of `s` from index `a` (inclusive) to `b` (exclusive). -/
def sliceChars (s : List Char) (a b : Nat) : List Char := (s.take b).drop a

/-- Model of ECMAScript GetSubstitution: expansion of a replacement
template for `String.prototype.replace`.  `matched` is the matched
substring, `before`/`after` the surrounding text, `g1` the first capture
group when the pattern was a regex with one group.  `$$` yields `$`,
`$&` the match, a dollar before code 96 (backquote) the preceding text,
a dollar before code 39 (quote) the following text, `$1` the group when
one exists; any other dollar sequence is left literally. -/
def getSubstitution (matched before after : List Char) (g1 : Option (List Char)) :
    List Char → List Char
  | [] => []
  | '$' :: rest =>
    match rest with
    | [] => ['$']
    | c :: t =>
      if c = '$' then '$' :: getSubstitution matched before after g1 t
      else if c = '&' then matched ++ getSubstitution matched before after g1 t
      else if c.toNat = 96 then before ++ getSubstitution matched before after g1 t
      else if c.toNat = 39 then after ++ getSubstitution matched before after g1 t
      else if c = '1' ∧ g1.isSome then
        g1.getD [] ++ getSubstitution matched before after g1 t
      else '$' :: getSubstitution matched before after g1 (c :: t)
  | c :: rest => c :: getSubstitution matched before after g1 rest

/-- Model of `String.prototype.replace` with a plain-string pattern:
the first occurrence of `pat` is replaced by the template `repl`
expanded through GetSubstitution (no capture groups). -/
def replaceOnceLit (s pat repl : List Char) : List Char :=
  match findSubGo pat s 0 with
  | none => s
  | some i =>
    s.take i ++
      getSubstitution pat (s.take i) (s.drop (i + pat.length)) none repl ++
      s.drop (i + pat.length)

/-- Model of `String.prototype.replace` with the regex
`<gsx:TAG>([\s\S]*?)</gsx:TAG>` built in `SpreadsheetRow#save`
(src/SpreadsheetRow.ts line 48): the match starts at the first
occurrence of the opening tag, the lazy group ends at the first
occurrence of the closing tag after it, and the whole match is replaced
by the template expanded through GetSubstitution (the group is capture
group 1).  When the tag has no such occurrence the string is returned
unchanged. -/
def replaceFirstGsxElem (s tag tmpl : List Char) : List Char :=
  let op := chars "<gsx:" ++ tag ++ chars ">"
  let cl := chars "</gsx:" ++ tag ++ chars ">"
  match findSubGo op s 0 with
  | none => s
  | some i =>
    match findSubGo cl (s.drop (i + op.length)) (i + op.length) with
    | none => s
    | some j =>
      s.take i ++
        getSubstitution (sliceChars s i (j + cl.length)) (s.take i)
          (s.drop (j + cl.length)) (some (sliceChars s (i + op.length) j)) tmpl ++
        s.drop (j + cl.length)

/-- Fueled scanner for `replaceAllSub`; every step consumes at least one
character, so fuel `s.length` always suffices. -/
def replaceAllSubGo (pat repl : List Char) : Nat → List Char → List Char
  | _, [] => []
  | 0, l => l
  | f + 1, c :: t =>
    if pat ≠ [] ∧ pat.isPrefixOf (c :: t) then
      repl ++ replaceAllSubGo pat repl f ((c :: t).drop pat.length)
    else c :: replaceAllSubGo pat repl f t

/-- Model of `String.prototype.replace` with a global regex made of the
literal characters of `pat`: every (non-overlapping, leftmost) occurrence
is replaced by `repl` (used for `xml.replace(/&quot;/g, '"')`, whose
replacement holds no dollar sequence). -/
def replaceAllSub (s pat repl : List Char) : List Char :=
  replaceAllSubGo pat repl s.length s

/-- Result of the collaborator `parseFloat`: `NaN`, or a number.  The
claims under verification never compute with the numeric value, only
compare presence and provenance, so a number is carried as the text of
the numeric prefix `parseFloat` consumed. -/
inductive JsNumVal
  | nan
  | num (text : List Char)
deriving DecidableEq, Repr

/-- ECMAScript whitespace class `\s` (also what `parseFloat` skips). -/
def jsWhitespaceChar (c : Char) : Bool :=
  c.toNat = 9 || c.toNat = 10 || c.toNat = 11 || c.toNat = 12 ||
  c.toNat = 13 || c.toNat = 32 || c.toNat = 160 || c.toNat = 65279 ||
  c.toNat = 5760 || (8192 ≤ c.toNat && c.toNat ≤ 8202) ||
  c.toNat = 8232 || c.toNat = 8233 || c.toNat = 8239 ||
  c.toNat = 8287 || c.toNat = 12288

/-- Decimal digit characters. -/
def isDigitChar (c : Char) : Bool := 48 ≤ c.toNat && c.toNat ≤ 57

/-- Longest digit prefix and the rest. -/
def spanDigits : List Char → List Char × List Char
  | [] => ([], [])
  | c :: t =>
    if isDigitChar c then
      let p := spanDigits t
      (c :: p.1, p.2)
    else ([], c :: t)

/-- Model of the collaborator `parseFloat`: skip leading whitespace, an
optional sign, then either `Infinity` or a decimal mantissa with an
optional exponent; `NaN` when no digit can be consumed.  The consumed
numeric prefix is kept as text (see `JsNumVal`). -/
def jsParseFloat (s : List Char) : JsNumVal :=
  let t := s.dropWhile jsWhitespaceChar
  let signAndRest : List Char × List Char :=
    match t with
    | '+' :: r => (['+'], r)
    | '-' :: r => (['-'], r)
    | r => ([], r)
  match signAndRest.2 with
  | 'I' :: 'n' :: 'f' :: 'i' :: 'n' :: 'i' :: 't' :: 'y' :: _ =>
    .num (signAndRest.1 ++ chars "Infinity")
  | t1 =>
    let ip := spanDigits t1
    let fracAndRest : List Char × List Char :=
      match ip.2 with
      | '.' :: r =>
        let fp := spanDigits r
        ('.' :: fp.1, fp.2)
      | r => ([], r)
    if ip.1 = [] ∧ fracAndRest.1.length ≤ 1 then .nan
    else
      let mantissa := signAndRest.1 ++ ip.1 ++ fracAndRest.1
      match fracAndRest.2 with
      | e :: rest =>
        if e = 'e' ∨ e = 'E' then
          let esignAndRest : List Char × List Char :=
            match rest with
            | '+' :: r => (['+'], r)
            | '-' :: r => (['-'], r)
            | r => ([], r)
          let ep := spanDigits esignAndRest.2
          if ep.1 = [] then .num mantissa
          else .num (mantissa ++ e :: (esignAndRest.1 ++ ep.1))
        else .num mantissa
      | [] => .num mantissa

/-- Runtime state of a `SpreadsheetCell` (src/SpreadsheetCell.ts).
Source field names: `row`, `col`, `batchID`, `id`, `spreadsheetKey`,
`worksheetID`, `links`, `_formula`, `_numericValue`, `_value`,
`_needsSave`.  `id` is set only when the constructor's canonical-URL
check failed (then `spreadsheetKey`/`worksheetID` stay unset, hence both
groups are optional here); `links` keeps relation/href pairs in
insertion order as a JS `Map` does. -/
structure SpreadsheetCell where
  row : Nat
  col : Nat
  batchID : List Char
  id : Option (List Char)
  spreadsheetKey : List Char
  worksheetID : Nat
  links : List (List Char × List Char)
  formula : Option (List Char)
  numericValue : Option JsNumVal
  value : List Char
  needsSave : Bool
deriving DecidableEq, Repr

/-- JS `Map.prototype.get`: the value stored for a key, `undefined` when
absent. -/
def mapGet (m : List (List Char × List Char)) (k : List Char) : Option (List Char) :=
  (m.find? fun p => p.1 = k).map Prod.snd

/-- The batch id assigned in the `SpreadsheetCell` constructor
(line 76): `R${row}C${col}`. -/
def mkBatchID (row col : Nat) : List Char :=
  chars "R" ++ natChars row ++ chars "C" ++ natChars col

/-- `SpreadsheetCell#getID` (line 97): the stored Atom id, or the
canonical cells-feed URL rebuilt from key, worksheet id and batch id. -/
def cellGetID (c : SpreadsheetCell) : List Char :=
  match c.id with
  | some i => i
  | none =>
    chars "https://spreadsheets.google.com/feeds/cells/" ++ c.spreadsheetKey ++
      chars "/" ++ natChars c.worksheetID ++ chars "/" ++ c.batchID

/-- `SpreadsheetCell#getEdit` (line 104): the `edit` link when the
registry has one, else the id with the batch id segment prefixed by
`private/full/` (a first-occurrence string replace). -/
def cellGetEdit (c : SpreadsheetCell) : List Char :=
  match mapGet c.links (chars "edit") with
  | some href => href
  | none =>
    replaceOnceLit (cellGetID c) c.batchID (chars "private/full/" ++ c.batchID)

/-- `SpreadsheetCell#_clearValue` (line 278). -/
def clearValue (c : SpreadsheetCell) : SpreadsheetCell :=
  { c with formula := none, numericValue := none, value := [] }

/-- The `value` getter (line 165): the pending-save sentinel while
`_needsSave` is set, else the stored value. -/
def valueGetter (c : SpreadsheetCell) : List Char :=
  if c.needsSave then chars "*SAVE TO GET NEW VALUE*" else c.value

/-- The `formula` setter (line 205).  The result pairs the cell state
with the thrown error message, if any: an empty (falsy) input clears the
cell, an input that does not start with `=` throws before any field is
assigned (so the state is returned unchanged), otherwise the formula is
stored, the numeric value cleared and the dirty flag set. -/
def setFormula (c : SpreadsheetCell) (val : List Char) :
    SpreadsheetCell × Option (List Char) :=
  if val = [] then (clearValue c, none)
  else if val.head? ≠ some '=' then
    (c, some (chars "Formulas must start with \"=\""))
  else ({ c with numericValue := none, needsSave := true, formula := some val }, none)

/-- The `value` setter (line 172) for a string input: a falsy (empty)
input clears the cell; otherwise `_numericValue` is set from
`parseFloat` when that is not `NaN` and cleared when it is, `_value`
becomes the input, and an input starting with `=` is forwarded to the
`formula` setter (which cannot throw there) while any other input
clears `_formula`. -/
def setValueProp (c : SpreadsheetCell) (val : List Char) : SpreadsheetCell :=
  if val = [] then clearValue c
  else
    let c1 :=
      match jsParseFloat val with
      | .num p => { c with numericValue := some (.num p), value := val }
      | .nan => { c with numericValue := none, value := val }
    if val.head? = some '=' then (setFormula c1 val).1
    else { c1 with formula := none }

/-- The `valueForSave` getter (line 245):
`xmlSafeValue(this._formula || this._value)`. -/
def valueForSave (c : SpreadsheetCell) : List Char :=
  xmlSafeValue
    (match c.formula with
     | some f => if f = [] then c.value else f
     | none => c.value)

/-- `SpreadsheetCell#getXML` (line 119): clears `_needsSave` (a side
effect performed before the batch request is sent) and returns the new
cell state together with the serialized batch `<entry>`. -/
def getXML (c : SpreadsheetCell) (link : List Char) :
    SpreadsheetCell × List Char :=
  ({ c with needsSave := false },
   chars "\t<entry>\n\t\t<batch:id>" ++ c.batchID ++
     chars "</batch:id>\n\t\t<batch:operation type=\"update\"/>\n\t\t<id>" ++
     link ++ chars "/" ++ c.batchID ++
     chars "</id>\n\t\t<link rel=\"edit\" type=\"application/atom+xml\" href=\"" ++
     cellGetEdit c ++ chars "\"/>\n\t\t<gs:cell row=\"" ++ natChars c.row ++
     chars "\" col=\"" ++ natChars c.col ++ chars "\" inputValue=\"" ++
     valueForSave c ++ chars "\"/>\n\t</entry>")

/-- The `gs:cell` payload of one parsed feed entry as
`updateValuesFromResponseData` reads it: `inputValue` and
`numericValue` attributes (either may be absent) and the element text
(`''` when absent, matching `data['gs:cell']['_'] || ''`). -/
structure CellFeedData where
  inputValue : Option (List Char)
  numericAttr : Option (List Char)
  content : List Char
deriving DecidableEq, Repr

/-- `SpreadsheetCell#updateValuesFromResponseData` (line 136):
`_formula` is the input value exactly when it is truthy and starts with
`=`; `_numericValue` is `parseFloat` of the attribute when present;
`_value` is the element text. -/
def updateValuesFromResponseData (c : SpreadsheetCell) (d : CellFeedData) :
    SpreadsheetCell :=
  { c with
    formula :=
      match d.inputValue with
      | some iv => if iv.head? = some '=' then some iv else none
      | none => none
    numericValue := d.numericAttr.map jsParseFloat
    value := d.content }

/-- Runtime state of a `SpreadsheetWorksheet`
(src/SpreadsheetWorksheet.ts): id parsed from the canonical URL, title,
row and column counts, and the link registry (which the constructor
extends with `cells` and `bulkcells = cells + "/batch"`). -/
structure SpreadsheetWorksheet where
  id : Nat
  title : List Char
  rowCount : Nat
  colCount : Nat
  links : List (List Char × List Char)
deriving DecidableEq, Repr

/-- An outbound request issued through
`GoogleSpreadsheet#makeFeedRequest`, as visible to this worksheet-level
model: a GET with structured url params and query, or a POST of a body
to a literal URL. -/
inductive FeedRequest
  | get (urlParams : List (List Char)) (query : List (List Char × List Char))
  | post (url : List Char) (body : List Char)
deriving DecidableEq, Repr

/-- Request-construction half of `SpreadsheetWorksheet#bulkUpdateCells`
(lines 145-154): serialize every cell through `getXML` (whose side
effect clears each cell's dirty flag) and build the batch feed body.
Returns the cell states after serialization and the body. -/
def bulkUpdateBuildRequest (link : List Char) (cells : List SpreadsheetCell) :
    List SpreadsheetCell × List Char :=
  let pairs := cells.map fun c => getXML c link
  (pairs.map Prod.fst,
   chars "<feed xmlns=\"http://www.w3.org/2005/Atom\" xmlns:batch=\"http://schemas.google.com/gdata/batch\" xmlns:gs=\"http://schemas.google.com/spreadsheets/2006\">" ++
     chars "\n\t  <id>" ++ link ++ chars "</id>\n" ++
     List.intercalate (chars "\n") (pairs.map Prod.snd) ++
     chars "\n</feed>")

/-- One entry of the parsed batch response: the text of its
`<batch:id>` element (read as `cellData['batch:id']`) and its `gs:cell`
payload. -/
structure BatchResponseEntry where
  batchId : List Char
  cell : CellFeedData
deriving DecidableEq, Repr

/-- The shape of `data.entry` after xml2js with `explicitArray: false`:
absent, a single object (one `<entry>` in the feed), or an array (two
or more). -/
inductive ParsedEntrySet
  | absent
  | one (e : BatchResponseEntry)
  | many (es : List BatchResponseEntry)
deriving DecidableEq, Repr

/-- The guard `data.entry && data.entry.length` (line 159): an absent
`entry` is falsy; a single parsed entry is a plain object whose
`length` property is `undefined`, hence falsy; an array is truthy when
its length is nonzero. -/
def entryGuard : ParsedEntrySet → Bool
  | .absent => false
  | .one _ => false
  | .many es => !es.isEmpty

/-- JS property access `cellObject[name]` for the string-valued
properties a runtime `SpreadsheetCell` object owns (TypeScript `private`
does not exist at runtime, so bracket access sees the actual property
names; the only string-valued own property relevant to the batch code
is `batchID`).  Any other name yields `undefined` (`none`). -/
def cellStringProp (c : SpreadsheetCell) (name : List Char) : Option (List Char) :=
  if name = chars "batchID" then some c.batchID else none

/-- JS object keys are strings: a computed key of `undefined` is
coerced to the string `"undefined"`. -/
def jsPropertyKey (v : Option (List Char)) : List Char :=
  match v with
  | some s => s
  | none => chars "undefined"

/-- Assignment `acc[k] = v` on a JS object modelled as an ordered
association list: overwrite the existing key or append. -/
def assocSet (m : List (List Char × Nat)) (k : List Char) (v : Nat) :
    List (List Char × Nat) :=
  match m with
  | [] => [(k, v)]
  | (k2, v2) :: t => if k2 = k then (k, v) :: t else (k2, v2) :: assocSet t k v

/-- Property read `m[k]` on that object: `undefined` (`none`) when the
key is absent. -/
def assocGet (m : List (List Char × Nat)) (k : List Char) : Option Nat :=
  (m.find? fun p => p.1 = k).map Prod.snd

/-- The `cellsByBatchID` dictionary of `bulkUpdateCells` (line 160):
`cells.reduce((acc, entry) => { acc[entry['batchId']] = entry; return acc; }, {})`.
Cells are identified by their index in the submitted list (distinct JS
object references); the key is the property read `entry['batchId']`. -/
def buildCellsByBatchID (cells : List SpreadsheetCell) : List (List Char × Nat) :=
  (cells.enum).foldl
    (fun acc p => assocSet acc (jsPropertyKey (cellStringProp p.2 (chars "batchId"))) p.1)
    []

/-- Response-application half of `bulkUpdateCells` (lines 159-167).
`for (const cellData of data.entry) cellsByBatchID[cellData['batch:id']].updateValuesFromResponseData(cellData)`:
each response entry is looked up in the dictionary; a missing key makes
the member call a TypeError (modelled as `none`); a found index updates
that cell in place.  When the guard is falsy nothing is updated. -/
def bulkUpdateApplyResponse (cells : List SpreadsheetCell)
    (entries : ParsedEntrySet) : Option (List SpreadsheetCell) :=
  if entryGuard entries then
    match entries with
    | .many es =>
      let dict := buildCellsByBatchID cells
      es.foldl
        (fun acc e =>
          match acc with
          | none => none
          | some cs =>
            match assocGet dict e.batchId with
            | some i =>
              some (cs.mapIdx fun j c =>
                if j = i then updateValuesFromResponseData c e.cell else c)
            | none => none)
        (some cells)
    | _ => some cells
  else some cells

/-- The cells query `setHeaderRow` issues (lines 185-191). -/
def headerRowQuery (colCount : Nat) : List (List Char × List Char) :=
  [(chars "min-row", chars "1"), (chars "max-row", chars "1"),
   (chars "min-col", chars "1"), (chars "max-col", natChars colCount),
   (chars "return-empty", chars "true")]

/-- Outcome of `setHeaderRow`: the requests issued in order, the thrown
validation error if any, and the resulting cell states. -/
structure SetHeaderRowOutcome where
  requests : List FeedRequest
  error : Option (List Char)
  cells : List SpreadsheetCell
deriving DecidableEq, Repr

/-- `SpreadsheetWorksheet#setHeaderRow` (line 181) for a supplied value
list.  A list longer than the current column count throws synchronously
(no request).  Otherwise the first row is fetched with the
`return-empty` query (`fetchedFirstRow` stands for the cells the
collaborator returns), every fetched cell is assigned
`values[cell.col - 1] || ''` through the `value` setter (an
out-of-range index gives `undefined`, which `|| ''` turns into the
empty string, as it does an empty value; cell columns are 1-based, as
the feed delivers them), and one batch update is
POSTed to the `bulkcells` link.  The worksheet constructor always
installs the `cells` and `bulkcells` relations, so their lookups are
defaulted. -/
def setHeaderRow (ws : SpreadsheetWorksheet) (spreadsheetKey : List Char)
    (values : List (List Char)) (fetchedFirstRow : List SpreadsheetCell) :
    SetHeaderRowOutcome :=
  if values.length > ws.colCount then
    { requests := []
      error := some (chars "Sheet is not large enough to fit " ++
        natChars values.length ++ chars " columns. Resize the sheet first.")
      cells := [] }
  else
    let assigned := fetchedFirstRow.map fun c =>
      setValueProp c (values.getD (c.col - 1) [])
    let built := bulkUpdateBuildRequest ((mapGet ws.links (chars "cells")).getD []) assigned
    { requests :=
        [.get [chars "cells", spreadsheetKey, natChars ws.id] (headerRowQuery ws.colCount),
         .post ((mapGet ws.links (chars "bulkcells")).getD []) built.2]
      error := none
      cells := built.1 }

/-- `GoogleSpreadsheetVisibility` (src/GoogleSpreadsheet.ts line 31):
`pub` is the member `public` (numeric value 0), `priv` the member
`private` (numeric value 1); the source names are Lean keywords. -/
inductive GoogleSpreadsheetVisibility
  | pub
  | priv
deriving DecidableEq, Repr

/-- `GoogleSpreadsheetProjection` (line 36): `full` = 0, `values` = 1. -/
inductive GoogleSpreadsheetProjection
  | full
  | values
deriving DecidableEq, Repr

/-- `GoogleSpreadsheetAuthMode` (line 41). -/
inductive GoogleSpreadsheetAuthMode
  | anonymous
  | token
  | jwt
deriving DecidableEq, Repr

/-- A loosely-typed JS value as the auth and option fields hold one:
`undefined`/`null`, a string, a number (an enum member is its numeric
value), or the credential object `{type, value, expires}` installed by
`renewJwtAuth`. -/
inductive JsVal
  | undef
  | jstr (s : List Char)
  | jnum (n : Int)
  | credObj (tokenType : List Char) (tokenValue : List Char) (expires : Int)
deriving DecidableEq, Repr

/-- JS truthiness of such a value: `undefined`/`null`, the empty string
and the number 0 are falsy; every object is truthy. -/
def truthy : JsVal → Bool
  | .undef => false
  | .jstr s => !s.isEmpty
  | .jnum n => n != 0
  | .credObj _ _ _ => true

/-- The constructor options relevant to `setAuthAndDependencies`:
`options.visibility` and `options.projection` (`undef` when not
supplied). -/
structure GSOptions where
  visibility : JsVal
  projection : JsVal
deriving DecidableEq, Repr

/-- The mutable fields of a `GoogleSpreadsheet` this model tracks:
`googleAuth`, `visibility`, `projection`, `authMode` and the stored
constructor options. -/
structure GSState where
  googleAuth : JsVal
  visibility : GoogleSpreadsheetVisibility
  projection : GoogleSpreadsheetProjection
  authMode : GoogleSpreadsheetAuthMode
  options : GSOptions
deriving DecidableEq, Repr

/-- The field initializers (lines 94-109): `googleAuth = null`,
`visibility = public`, `projection = values`, `authMode = anonymous`. -/
def initialGSState (opts : GSOptions) : GSState :=
  { googleAuth := .undef
    visibility := .pub
    projection := .values
    authMode := .anonymous
    options := opts }

/-- `GoogleSpreadsheet#setAuthAndDependencies` (line 148): store the
auth value; when `options.visibility` is falsy recompute `visibility`
from credential presence (`private` when truthy, else `public`), and
likewise `projection` (`full`/`values`).  A truthy option leaves the
field at its current value — the option's own value is never
installed. -/
def setAuthAndDependencies (st : GSState) (auth : JsVal) : GSState :=
  { st with
    googleAuth := auth
    visibility :=
      if !truthy st.options.visibility then
        (if truthy auth then .priv else .pub)
      else st.visibility
    projection :=
      if !truthy st.options.projection then
        (if truthy auth then .full else .values)
      else st.projection }

/-- `GoogleSpreadsheet#setAuthToken` (line 159): promote `anonymous` to
`token`, then `setAuthAndDependencies`. -/
def setAuthToken (st : GSState) (auth : JsVal) : GSState :=
  setAuthAndDependencies
    { st with
      authMode :=
        if st.authMode = .anonymous then .token else st.authMode }
    auth

/-- The `GoogleSpreadsheet` constructor (line 136): an empty (falsy)
key throws before anything else; otherwise the state is the field
initializers followed by `setAuthAndDependencies(authID)`. -/
def constructGoogleSpreadsheet (spreadsheetKey : List Char) (authID : JsVal)
    (opts : GSOptions) : Except (List Char) GSState :=
  if spreadsheetKey = [] then .error (chars "Spreadsheet key not provided")
  else .ok (setAuthAndDependencies (initialGSState opts) authID)

/-- The credential issuer collaborator's response
(`jwtClient.authorize()`): token type, access token, expiry timestamp. -/
structure IssuedCredentials where
  tokenType : List Char
  accessToken : List Char
  expiryDate : Int
deriving DecidableEq, Repr

/-- `GoogleSpreadsheet#renewJwtAuth` (line 177): set `authMode = jwt`,
obtain credentials from the issuer, and install them through
`setAuthToken` as `{type, value, expires}`. -/
def renewJwtAuth (st : GSState) (issued : IssuedCredentials) : GSState :=
  setAuthToken { st with authMode := .jwt }
    (.credObj issued.tokenType issued.accessToken issued.expiryDate)

/-- The property read `googleAuth.expires`: defined only on the
credential object, `undefined` otherwise. -/
def credExpires : JsVal → Option Int
  | .credObj _ _ e => some e
  | _ => none

/-- The JS comparison `expires > now`: false when `expires` is
`undefined` (NaN comparison). -/
def jsGreaterThan : Option Int → Int → Bool
  | some e, now => e > now
  | none, _ => false

/-- The auth step of `makeFeedRequest` (line 347):
`if (authMode === jwt && googleAuth && googleAuth.expires > Date.now()) await renewJwtAuth()`.
Returns the state in which the feed request proceeds, paired with the
number of re-authorization calls made to the credential issuer before
the request (`issued` is what the issuer would return). -/
def makeFeedRequestAuthStep (st : GSState) (now : Int)
    (issued : IssuedCredentials) : GSState × Nat :=
  if st.authMode = .jwt ∧ truthy st.googleAuth ∧
      jsGreaterThan (credExpires st.googleAuth) now then
    (renewJwtAuth st issued, 1)
  else (st, 0)

/-- Response handling of `makeFeedRequest` (lines 369-378), abstracted
over the XML parser collaborator (`parseXml`) and Node's
`STATUS_CODES` reason-phrase table (`statusCodes`).  In source order: a
200 status whose content type includes `text/html` throws the
private-sheet access error; a 401 throws the invalid-credential error;
a status ≥ 400 throws `HTTP error <status> (<reason>) - <body>` with
`&quot;` unescaped in the body; otherwise the raw text and the parsed
structure (`none` for an empty body) are returned. -/
def handleFeedResponse {α : Type} (parseXml : List Char → α)
    (statusCodes : Nat → List Char) (status : Nat) (contentType : List Char)
    (bodyText : List Char) : Except (List Char) (List Char × Option α) :=
  if status = 200 ∧ includesSub contentType (chars "text/html") then
    .error (chars "Sheet is private. Use authentication or make public.")
  else if status = 401 then
    .error (chars "Invalid authorization key.")
  else if status ≥ 400 then
    .error (chars "HTTP error " ++ natChars status ++ chars " (" ++
      statusCodes status ++ chars ") - " ++
      replaceAllSub bodyText (chars "&quot;") (chars "\""))
  else
    .ok (bodyText, if bodyText = [] then none else some (parseXml bodyText))

/-- `SpreadsheetRow#save` (lines 43-52), producing the PUT body from
the retained source XML fragment and the row's in-memory mapping
entries in iteration order.  First the literal `<entry>` has the Atom
and gsx namespace declarations added (a first-occurrence string
replace), then for each entry the first
`<gsx:K>…</gsx:K>` element — `K` the normalized column name — is
replaced by the template `<gsx:K>escapedValue</gsx:K>`, which
`String.prototype.replace` expands as a substitution template. -/
def rowSaveBody (xml : List Char) (entries : List (List Char × List Char)) :
    List Char :=
  let start := replaceOnceLit xml (chars "<entry>")
    (chars "<entry xmlns='http://www.w3.org/2005/Atom' xmlns:gsx='http://schemas.google.com/spreadsheets/2006/extended'>")
  entries.foldl
    (fun acc kv =>
      replaceFirstGsxElem acc (xmlSafeColumnName kv.1)
        (chars "<gsx:" ++ xmlSafeColumnName kv.1 ++ chars ">" ++
          xmlSafeValue kv.2 ++ chars "</gsx:" ++ xmlSafeColumnName kv.1 ++ chars ">"))
    start

/-- A request is the batch POST (`bulkUpdateCells` issues exactly one). -/
def isPostRequest : FeedRequest → Bool
  | .post _ _ => true
  | .get _ _ => false

/-! ## Concrete instances used to evaluate the model -/

/-- A cell as `getCells` would produce it: coordinates, the batch id
`R<row>C<col>` from the constructor, an `edit` link, plain value. -/
def exampleCell (r k : Nat) (v : List Char) (dirty : Bool) : SpreadsheetCell :=
  { row := r, col := k, batchID := mkBatchID r k, id := none,
    spreadsheetKey := chars "KEY", worksheetID := 1,
    links := [(chars "edit",
      chars "https://spreadsheets.google.com/feeds/cells/KEY/1/private/full/" ++ mkBatchID r k)],
    formula := none, numericValue := none, value := v, needsSave := dirty }

/-- The two cells of the batch scenario from the specification. -/
def batchCellR1C1 : SpreadsheetCell := exampleCell 1 1 (chars "old1") false

/-- Second cell of that scenario. -/
def batchCellR1C2 : SpreadsheetCell := exampleCell 1 2 (chars "old2") false

/-- A server response entry carrying batch id `R1C1`. -/
def batchRespR1C1 : BatchResponseEntry :=
  { batchId := mkBatchID 1 1,
    cell := { inputValue := some (chars "7"), numericAttr := some (chars "7.0"),
              content := chars "7" } }

/-- A server response entry carrying batch id `R1C2`. -/
def batchRespR1C2 : BatchResponseEntry :=
  { batchId := mkBatchID 1 2,
    cell := { inputValue := some (chars "8"), numericAttr := some (chars "8.0"),
              content := chars "8" } }

/-- A cell with a stored numeric value, used to exercise the setters. -/
def formulaCellExample : SpreadsheetCell :=
  { exampleCell 2 3 (chars "41") false with numericValue := some (.num (chars "41")) }

/-- A cell with a pending (unsaved) formula assignment: dirty flag set. -/
def dirtyCellExample : SpreadsheetCell :=
  { exampleCell 1 1 (chars "41") true with formula := some (chars "=A2") }

/-- Empty constructor options. -/
def defaultGSOptions : GSOptions := { visibility := .undef, projection := .undef }

/-- A service-account state whose stored credential expired at time 0. -/
def expiredJwtState : GSState :=
  { googleAuth := .credObj (chars "Bearer") (chars "stale") 0,
    visibility := .priv, projection := .full, authMode := .jwt,
    options := defaultGSOptions }

/-- The same state with a credential valid until time 5000. -/
def freshJwtState : GSState :=
  { expiredJwtState with googleAuth := .credObj (chars "Bearer") (chars "fresh") 5000 }

/-- What the credential issuer returns on re-authorization. -/
def issuedExample : IssuedCredentials :=
  { tokenType := chars "Bearer", accessToken := chars "renewed", expiryDate := 9000 }

/-- A worksheet with three columns and the two cells-feed links the
constructor installs. -/
def exampleWorksheet : SpreadsheetWorksheet :=
  { id := 1, title := chars "Sheet1", rowCount := 50, colCount := 3,
    links := [(chars "edit", chars "https://spreadsheets.google.com/feeds/worksheets/KEY/private/full/1/0"),
      (chars "cells", chars "https://spreadsheets.google.com/feeds/cells/KEY/1"),
      (chars "bulkcells", chars "https://spreadsheets.google.com/feeds/cells/KEY/1/batch")] }

/-- The retained XML fragment of a one-column row. -/
def rowXmlExample : List Char := chars "<entry><gsx:a>old</gsx:a></entry>"

/-! ## Properties of the XML value codec (util.ts) -/

/-- Character-wise form of `xmlSafeValue`, used to structure proofs. -/
def escapeAll : List Char → List Char
  | [] => []
  | c :: t => escChar c ++ escapeAll t

theorem replaceAllChar_append (c : Char) (r a b : List Char) :
    replaceAllChar c r (a ++ b) = replaceAllChar c r a ++ replaceAllChar c r b := by
  induction a with
  | nil => simp [replaceAllChar]
  | cons x t ih => simp [replaceAllChar, ih]

theorem xmlSafeValue_append (a b : List Char) :
    xmlSafeValue (a ++ b) = xmlSafeValue a ++ xmlSafeValue b := by
  simp [xmlSafeValue, replaceAllChar_append]

theorem xmlSafeValue_singleton (c : Char) : xmlSafeValue [c] = escChar c := by
  by_cases h1 : c = '&'
  · subst h1; rfl
  by_cases h2 : c = '<'
  · subst h2; rfl
  by_cases h3 : c = '>'
  · subst h3; rfl
  by_cases h4 : c = '"'
  · subst h4; rfl
  by_cases h5 : c = '\n'
  · subst h5; rfl
  by_cases h6 : c = '\r'
  · subst h6; rfl
  simp [xmlSafeValue, replaceAllChar, escChar, h1, h2, h3, h4, h5, h6]

theorem xmlSafeValue_eq_escapeAll (l : List Char) : xmlSafeValue l = escapeAll l := by
  induction l with
  | nil => rfl
  | cons c t ih =>
    rw [show xmlSafeValue (c :: t) = xmlSafeValue ([c] ++ t) from rfl,
      xmlSafeValue_append, xmlSafeValue_singleton, escapeAll, ih]

theorem unescGo_nil (fuel : Nat) : unescGo fuel [] = [] := by
  cases fuel <;> rfl

theorem unescGo_cons_ne (fuel : Nat) (c : Char) (t : List Char) (h : c ≠ '&') :
    unescGo (fuel + 1) (c :: t) = c :: unescGo fuel t := by
  rw [unescGo, if_neg h]

theorem unescGo_escapeAll (s : List Char) :
    ∀ fuel : Nat, (escapeAll s).length ≤ fuel → unescGo fuel (escapeAll s) = s := by
  induction s with
  | nil => intro fuel _; simp [escapeAll, unescGo_nil]
  | cons c t ih =>
    intro fuel hlen
    rw [escapeAll] at hlen ⊢
    by_cases h1 : c = '&'
    · subst h1
      rw [show escChar '&' ++ escapeAll t =
            '&' :: 'a' :: 'm' :: 'p' :: ';' :: escapeAll t from rfl] at hlen ⊢
      cases fuel with
      | zero => simp at hlen
      | succ f =>
        rw [unescGo, if_pos rfl,
          show unescAfterAmp ('a' :: 'm' :: 'p' :: ';' :: escapeAll t) =
            some ('&', escapeAll t) from rfl]
        simp only [List.length_cons] at hlen
        exact congrArg ('&' :: ·) (ih f (by omega))
    by_cases h2 : c = '<'
    · subst h2
      rw [show escChar '<' ++ escapeAll t =
            '&' :: 'l' :: 't' :: ';' :: escapeAll t from rfl] at hlen ⊢
      cases fuel with
      | zero => simp at hlen
      | succ f =>
        rw [unescGo, if_pos rfl,
          show unescAfterAmp ('l' :: 't' :: ';' :: escapeAll t) =
            some ('<', escapeAll t) from rfl]
        simp only [List.length_cons] at hlen
        exact congrArg ('<' :: ·) (ih f (by omega))
    by_cases h3 : c = '>'
    · subst h3
      rw [show escChar '>' ++ escapeAll t =
            '&' :: 'g' :: 't' :: ';' :: escapeAll t from rfl] at hlen ⊢
      cases fuel with
      | zero => simp at hlen
      | succ f =>
        rw [unescGo, if_pos rfl,
          show unescAfterAmp ('g' :: 't' :: ';' :: escapeAll t) =
            some ('>', escapeAll t) from rfl]
        simp only [List.length_cons] at hlen
        exact congrArg ('>' :: ·) (ih f (by omega))
    by_cases h4 : c = '"'
    · subst h4
      rw [show escChar '"' ++ escapeAll t =
            '&' :: 'q' :: 'u' :: 'o' :: 't' :: ';' :: escapeAll t from rfl] at hlen ⊢
      cases fuel with
      | zero => simp at hlen
      | succ f =>
        rw [unescGo, if_pos rfl,
          show unescAfterAmp ('q' :: 'u' :: 'o' :: 't' :: ';' :: escapeAll t) =
            some ('"', escapeAll t) from rfl]
        simp only [List.length_cons] at hlen
        exact congrArg ('"' :: ·) (ih f (by omega))
    by_cases h5 : c = '\n'
    · subst h5
      rw [show escChar '\n' ++ escapeAll t =
            '&' :: '#' :: '1' :: '0' :: ';' :: escapeAll t from rfl] at hlen ⊢
      cases fuel with
      | zero => simp at hlen
      | succ f =>
        rw [unescGo, if_pos rfl,
          show unescAfterAmp ('#' :: '1' :: '0' :: ';' :: escapeAll t) =
            some ('\n', escapeAll t) from rfl]
        simp only [List.length_cons] at hlen
        exact congrArg ('\n' :: ·) (ih f (by omega))
    by_cases h6 : c = '\r'
    · subst h6
      rw [show escChar '\r' ++ escapeAll t =
            '&' :: '#' :: '1' :: '3' :: ';' :: escapeAll t from rfl] at hlen ⊢
      cases fuel with
      | zero => simp at hlen
      | succ f =>
        rw [unescGo, if_pos rfl,
          show unescAfterAmp ('#' :: '1' :: '3' :: ';' :: escapeAll t) =
            some ('\r', escapeAll t) from rfl]
        simp only [List.length_cons] at hlen
        exact congrArg ('\r' :: ·) (ih f (by omega))
    rw [show escChar c = [c] from by simp [escChar, h1, h2, h3, h4, h5, h6],
      List.singleton_append] at hlen ⊢
    cases fuel with
    | zero => simp at hlen
    | succ f =>
      rw [unescGo_cons_ne f c _ h1]
      simp only [List.length_cons] at hlen
      exact congrArg (c :: ·) (ih f (by omega))

/-- C8: for every scalar input, unescaping the output of `xmlSafeValue`
with the XML parser collaborator's standard entity unescaping yields the
input back, whatever combination and order of the escaped characters
(ampersand, less-than, greater-than, double quote, newline, carriage
return) — indeed any characters at all — the input contains. -/
theorem xmlSafeValue_roundtrip (v : List Char) : unescape (xmlSafeValue v) = v := by
  rw [xmlSafeValue_eq_escapeAll, unescape]
  exact unescGo_escapeAll v _ le_rfl

theorem toNat_charOfNat_of_lt (n : Nat) (h : n < 55296) : (Char.ofNat n).toNat = n := by
  simp only [Char.ofNat]
  rw [dif_pos (Or.inl h : Nat.isValidChar n)]
  rfl

theorem toLower_toNat_of_upper (c : Char) (h1 : 65 ≤ c.toNat) (h2 : c.toNat ≤ 90) :
    c.toLower.toNat = c.toNat + 32 := by
  simp only [Char.toLower]
  rw [if_pos (show c.toNat ≥ 65 ∧ c.toNat ≤ 90 from ⟨h1, h2⟩)]
  exact toNat_charOfNat_of_lt _ (by omega)

theorem toLower_eq_self_of_not_upper (c : Char) (h : ¬(65 ≤ c.toNat ∧ c.toNat ≤ 90)) :
    c.toLower = c := by
  simp only [Char.toLower]
  rw [if_neg]
  omega

theorem toLower_idem (c : Char) : c.toLower.toLower = c.toLower := by
  by_cases h : 65 ≤ c.toNat ∧ c.toNat ≤ 90
  · have hn := toLower_toNat_of_upper c h.1 h.2
    exact toLower_eq_self_of_not_upper _ (by omega)
  · rw [toLower_eq_self_of_not_upper c h, toLower_eq_self_of_not_upper c h]

theorem removedByColumnRegex_iff (c : Char) :
    removedByColumnRegex c = true ↔
      (c.toNat = 9 ∨ c.toNat = 10 ∨ c.toNat = 11 ∨ c.toNat = 12 ∨
       c.toNat = 13 ∨ c.toNat = 32 ∨ c.toNat = 160 ∨ c.toNat = 65279 ∨
       c.toNat = 5760 ∨ (8192 ≤ c.toNat ∧ c.toNat ≤ 8202) ∨
       c.toNat = 8232 ∨ c.toNat = 8233 ∨ c.toNat = 8239 ∨
       c.toNat = 8287 ∨ c.toNat = 12288 ∨ c.toNat = 95) := by
  simp [removedByColumnRegex, or_assoc]

theorem removedByColumnRegex_toLower (c : Char) (h : removedByColumnRegex c = false) :
    removedByColumnRegex c.toLower = false := by
  by_cases hu : 65 ≤ c.toNat ∧ c.toNat ≤ 90
  · have hn := toLower_toNat_of_upper c hu.1 hu.2
    rw [← Bool.not_eq_true, removedByColumnRegex_iff]
    omega
  · rw [toLower_eq_self_of_not_upper c hu, h]

theorem filter_map_toLower_filtered (l : List Char) :
    ((l.filter fun c => !removedByColumnRegex c).map Char.toLower).filter
        (fun c => !removedByColumnRegex c) =
      (l.filter fun c => !removedByColumnRegex c).map Char.toLower := by
  induction l with
  | nil => rfl
  | cons c t ih =>
    rw [List.filter_cons]
    by_cases hc : removedByColumnRegex c = false
    · rw [if_pos (by simp [hc]), List.map_cons, List.filter_cons,
        if_pos (by simp [removedByColumnRegex_toLower c hc]), ih]
    · rw [if_neg (by simp_all), ih]

theorem map_toLower_idem (l : List Char) :
    (l.map Char.toLower).map Char.toLower = l.map Char.toLower := by
  induction l with
  | nil => rfl
  | cons c t ih => simp [toLower_idem, ih]

/-- C9: `xmlSafeColumnName` is idempotent — applying it twice is the same
as applying it once, for every input string. -/
theorem xmlSafeColumnName_idempotent (s : List Char) :
    xmlSafeColumnName (xmlSafeColumnName s) = xmlSafeColumnName s := by
  by_cases hs : s = []
  · subst hs; rfl
  have hval : xmlSafeColumnName s =
      (s.filter fun c => !removedByColumnRegex c).map Char.toLower := by
    rw [xmlSafeColumnName, if_neg hs]
  by_cases hm : xmlSafeColumnName s = []
  · rw [hm]; rfl
  conv_lhs => rw [xmlSafeColumnName, if_neg hm, hval]
  rw [filter_map_toLower_filtered, map_toLower_idem, hval]

/-! ## Batch update correlation (SpreadsheetWorksheet.bulkUpdateCells) -/

/-- C1: evaluation of the batch response correlation at the failing
input.  The dictionary `cellsByBatchID` is built from the property read
`entry['batchId']`, but the runtime property is named `batchID`, so the
read yields `undefined` and every cell is stored under the single key
`"undefined"` (the last one winning).  For the two submitted cells with
batch ids `R1C1`, `R1C2` and a response carrying one entry per cell —
in reversed order, and equally in request order — the lookup
`cellsByBatchID[cellData['batch:id']]` is `undefined` and the method
call on it is a TypeError (`none`): no cell is ever updated from its
matching entry, contradicting the claim. -/
theorem bulkUpdateCells_batchid_correlation_crashes :
    buildCellsByBatchID [batchCellR1C1, batchCellR1C2] = [(chars "undefined", 1)] ∧
    bulkUpdateApplyResponse [batchCellR1C1, batchCellR1C2]
      (.many [batchRespR1C2, batchRespR1C1]) = none ∧
    bulkUpdateApplyResponse [batchCellR1C1, batchCellR1C2]
      (.many [batchRespR1C1, batchRespR1C2]) = none := by
  exact ⟨rfl, rfl, rfl⟩

/-! ## Service-account credential renewal (GoogleSpreadsheet.makeFeedRequest) -/

/-- C2: evaluation of the auth step of `makeFeedRequest` at the two
inputs of the claim.  The guard at line 347 is
`googleAuth.expires > Date.now()`, so at time 1000 a credential that
expired at time 0 triggers zero re-authorization calls before the feed
request (the claim requires exactly one), while a credential valid
until 5000 triggers one on the very next request (the claim requires
zero). -/
theorem jwt_renewal_comparison_flipped :
    credExpires expiredJwtState.googleAuth = some 0 ∧
    makeFeedRequestAuthStep expiredJwtState 1000 issuedExample = (expiredJwtState, 0) ∧
    credExpires freshJwtState.googleAuth = some 5000 ∧
    (makeFeedRequestAuthStep freshJwtState 1000 issuedExample).2 = 1 := by
  exact ⟨rfl, rfl, rfl, rfl⟩

/-! ## Row persistence (SpreadsheetRow.save) -/

set_option maxRecDepth 20000 in
/-- C4: evaluation of the PUT body built by `save` at a failing input.
The replacement string `<gsx:K>${xmlSafeValue(value)}</gsx:K>` is an
ECMAScript substitution template: for the stored fragment
`<entry><gsx:a>old</gsx:a></entry>` and mapping `a ↦ "$&"`, the escaped
value `$&amp;` contains the `$&` sequence, which re-inserts the matched
element, so the body contains `<gsx:a><gsx:a>old</gsx:a>amp;</gsx:a>`
instead of the freshly serialized element `<gsx:a>$&amp;</gsx:a>`
holding the XML-escaped current value that the claim requires. -/
theorem row_save_dollar_template_corrupts_body :
    rowSaveBody rowXmlExample [(chars "a", chars "$&")] =
      chars "<entry xmlns='http://www.w3.org/2005/Atom' xmlns:gsx='http://schemas.google.com/spreadsheets/2006/extended'><gsx:a><gsx:a>old</gsx:a>amp;</gsx:a></entry>" ∧
    rowSaveBody rowXmlExample [(chars "a", chars "$&")] ≠
      chars "<entry xmlns='http://www.w3.org/2005/Atom' xmlns:gsx='http://schemas.google.com/spreadsheets/2006/extended'><gsx:a>$&amp;</gsx:a></entry>" := by
  refine ⟨rfl, ?_⟩
  intro h
  exact absurd (congrArg List.length h) (by decide)

/-! ## Cell formula setter (SpreadsheetCell.set formula) -/

/-- C6: the `formula` setter stores a non-empty input beginning with `=`
as the formula (clearing the numeric value and setting the dirty flag),
throws the validation error exactly when the input is non-empty and
does not begin with `=`, and in that case leaves the whole cell state —
value, formula, numericValue included — unchanged. -/
theorem formula_setter_validation (c : SpreadsheetCell) (val : List Char) :
    ((setFormula c val).2.isSome ↔ val ≠ [] ∧ val.head? ≠ some '=') ∧
    ((setFormula c val).2.isSome → (setFormula c val).1 = c) ∧
    (val ≠ [] → val.head? = some '=' →
      setFormula c val =
        ({ c with numericValue := none, needsSave := true, formula := some val },
         none)) := by
  unfold setFormula
  by_cases h1 : val = []
  · simp [h1]
  · by_cases h2 : val.head? = some '='
    · simp [h1, h2]
    · simp [h1, h2]

/-- C6 witness: at the spec's concrete inputs, `"=SUM(A1:A2)"` is stored
as the formula (dirty flag set, numeric value cleared) and
`"SUM(A1:A2)"` throws while the cell keeps its state. -/
theorem formula_setter_validation_witness :
    (setFormula formulaCellExample (chars "=SUM(A1:A2)")).2 = none ∧
    (setFormula formulaCellExample (chars "=SUM(A1:A2)")).1.formula =
      some (chars "=SUM(A1:A2)") ∧
    (setFormula formulaCellExample (chars "SUM(A1:A2)")).2.isSome = true ∧
    (setFormula formulaCellExample (chars "SUM(A1:A2)")).1 = formulaCellExample := by
  have hok := (formula_setter_validation formulaCellExample (chars "=SUM(A1:A2)")).2.2
    (by decide) (by decide)
  have herr := (formula_setter_validation formulaCellExample (chars "SUM(A1:A2)")).1.mpr
    ⟨by decide, by decide⟩
  have hkeep := (formula_setter_validation formulaCellExample (chars "SUM(A1:A2)")).2.1 herr
  exact ⟨by rw [hok], by rw [hok], herr, hkeep⟩

/-! ## Dirty-flag side effect of serialization (SpreadsheetCell.getXML) -/

/-- C10: while a formula assignment is pending the `value` getter
returns the pending-save sentinel; `getXML` — the serialization
`bulkUpdateCells` performs on every cell while building the batch body,
before any request is sent — clears the dirty flag as a side effect, so
afterwards the getter returns the stale stored value, and nothing in
the request-building phase restores the flag (so this persists even if
the batch request then fails and no response re-hydrates the cell). -/
theorem getXML_clears_needsSave (c : SpreadsheetCell) (link : List Char)
    (h : c.needsSave = true) :
    valueGetter c = chars "*SAVE TO GET NEW VALUE*" ∧
    (getXML c link).1.needsSave = false ∧
    valueGetter (getXML c link).1 = c.value ∧
    ∀ cells : List SpreadsheetCell,
      (bulkUpdateBuildRequest link cells).1 = cells.map fun x => (getXML x link).1 := by
  refine ⟨by simp [valueGetter, h], rfl, by simp [valueGetter, getXML], ?_⟩
  intro cells
  simp [bulkUpdateBuildRequest]

/-- C10 witness: a concrete dirty cell (pending formula `=A2`, stored
value `41`) reads as the sentinel before serialization and as `41`
after. -/
theorem getXML_clears_needsSave_witness :
    dirtyCellExample.needsSave = true ∧
    valueGetter dirtyCellExample = chars "*SAVE TO GET NEW VALUE*" ∧
    (getXML dirtyCellExample (chars "https://spreadsheets.google.com/feeds/cells/KEY/1")).1.needsSave
      = false ∧
    valueGetter
        (getXML dirtyCellExample (chars "https://spreadsheets.google.com/feeds/cells/KEY/1")).1
      = chars "41" := by
  have h := getXML_clears_needsSave dirtyCellExample
    (chars "https://spreadsheets.google.com/feeds/cells/KEY/1") (by decide)
  exact ⟨by decide, h.1, h.2.1, h.2.2.1⟩

/-! ## Header row (SpreadsheetWorksheet.setHeaderRow) -/

/-- C7: for a supplied header list longer than the current column count,
`setHeaderRow` throws the validation error synchronously with no
request issued; otherwise it issues first the cells GET covering the
whole first row with `return-empty = true`, then exactly one batch
POST (to the `bulkcells` link), and every fetched cell is assigned
`values[cell.col - 1] || ''` through the `value` setter before being
serialized into the batch. -/
theorem setHeaderRow_spec (ws : SpreadsheetWorksheet) (key : List Char)
    (values : List (List Char)) (fetched : List SpreadsheetCell) :
    (values.length > ws.colCount →
      (setHeaderRow ws key values fetched).error.isSome = true ∧
      (setHeaderRow ws key values fetched).requests = []) ∧
    (values.length ≤ ws.colCount →
      (setHeaderRow ws key values fetched).error = none ∧
      (setHeaderRow ws key values fetched).requests.head? =
        some (.get [chars "cells", key, natChars ws.id]
          [(chars "min-row", chars "1"), (chars "max-row", chars "1"),
           (chars "min-col", chars "1"), (chars "max-col", natChars ws.colCount),
           (chars "return-empty", chars "true")]) ∧
      ((setHeaderRow ws key values fetched).requests.filter isPostRequest).length = 1 ∧
      ((setHeaderRow ws key values fetched).requests.filter isPostRequest) =
        [.post ((mapGet ws.links (chars "bulkcells")).getD [])
          (bulkUpdateBuildRequest ((mapGet ws.links (chars "cells")).getD [])
            (fetched.map fun c => setValueProp c (values.getD (c.col - 1) []))).2] ∧
      (setHeaderRow ws key values fetched).cells =
        fetched.map fun c =>
          (getXML (setValueProp c (values.getD (c.col - 1) []))
            ((mapGet ws.links (chars "cells")).getD [])).1) := by
  constructor
  · intro h
    rw [setHeaderRow, if_pos h]
    exact ⟨rfl, rfl⟩
  · intro h
    rw [setHeaderRow, if_neg (by omega)]
    refine ⟨rfl, rfl, rfl, rfl, ?_⟩
    simp [bulkUpdateBuildRequest, headerRowQuery, isPostRequest]

/-- C7 witness: on a worksheet with `colCount = 3`,
`setHeaderRow(["a","b","c","d"])` fails with no request, while
`["a","b"]` issues the full-first-row GET and exactly one batch POST. -/
theorem setHeaderRow_spec_witness :
    (setHeaderRow exampleWorksheet (chars "KEY")
        [chars "a", chars "b", chars "c", chars "d"]
        [exampleCell 1 1 [] false, exampleCell 1 2 [] false, exampleCell 1 3 [] false]).error.isSome
      = true ∧
    (setHeaderRow exampleWorksheet (chars "KEY")
        [chars "a", chars "b", chars "c", chars "d"]
        [exampleCell 1 1 [] false, exampleCell 1 2 [] false, exampleCell 1 3 [] false]).requests
      = [] ∧
    (setHeaderRow exampleWorksheet (chars "KEY") [chars "a", chars "b"]
        [exampleCell 1 1 [] false, exampleCell 1 2 [] false, exampleCell 1 3 [] false]).error
      = none ∧
    ((setHeaderRow exampleWorksheet (chars "KEY") [chars "a", chars "b"]
        [exampleCell 1 1 [] false, exampleCell 1 2 [] false, exampleCell 1 3 [] false]).requests.filter
        isPostRequest).length = 1 := by
  have hbig := (setHeaderRow_spec exampleWorksheet (chars "KEY")
    [chars "a", chars "b", chars "c", chars "d"]
    [exampleCell 1 1 [] false, exampleCell 1 2 [] false, exampleCell 1 3 [] false]).1
    (by decide)
  have hfit := (setHeaderRow_spec exampleWorksheet (chars "KEY") [chars "a", chars "b"]
    [exampleCell 1 1 [] false, exampleCell 1 2 [] false, exampleCell 1 3 [] false]).2
    (by decide)
  exact ⟨hbig.1, hbig.2, hfit.1, hfit.2.2.1⟩

/-! ## Response handling (GoogleSpreadsheet.makeFeedRequest) -/

/-- C5: response handling of `makeFeedRequest`, quantified over the
parser collaborator and the reason-phrase table.  A 200 status with an
HTML content type fails with the access error; a 401 fails with the
invalid-credential error; any other status ≥ 400 fails with the error
carrying the status code, its reason phrase from the table, and the
response body with `&quot;` unescaped; otherwise the call succeeds with
the raw body and its parse (no data for an empty body). -/
theorem makeFeedRequest_response_handling {α : Type} (parseXml : List Char → α)
    (statusCodes : Nat → List Char) (status : Nat) (ct body : List Char) :
    (status = 200 → includesSub ct (chars "text/html") = true →
      handleFeedResponse parseXml statusCodes status ct body =
        .error (chars "Sheet is private. Use authentication or make public.")) ∧
    (status = 401 →
      handleFeedResponse parseXml statusCodes status ct body =
        .error (chars "Invalid authorization key.")) ∧
    (¬(status = 200 ∧ includesSub ct (chars "text/html") = true) → status ≠ 401 →
      400 ≤ status →
      handleFeedResponse parseXml statusCodes status ct body =
        .error (chars "HTTP error " ++ natChars status ++ chars " (" ++
          statusCodes status ++ chars ") - " ++
          replaceAllSub body (chars "&quot;") (chars "\""))) ∧
    (¬(status = 200 ∧ includesSub ct (chars "text/html") = true) → status < 400 →
      handleFeedResponse parseXml statusCodes status ct body =
        .ok (body, if body = [] then none else some (parseXml body))) := by
  refine ⟨?_, ?_, ?_, ?_⟩
  · intro h1 h2
    rw [handleFeedResponse, if_pos ⟨h1, h2⟩]
  · intro h1
    rw [handleFeedResponse, if_neg (by omega), if_pos h1]
  · intro h1 h2 h3
    rw [handleFeedResponse, if_neg h1, if_neg h2, if_pos h3]
  · intro h1 h2
    rw [handleFeedResponse, if_neg h1, if_neg (by omega), if_neg (by omega)]

/-- C5 witness: each branch at a concrete response, with the identity
parser and a one-entry reason table.  A 200 HTML response fails as
private; a 401 fails as invalid credential; a 400 with body
`bad &quot;x&quot;` fails with status, reason `Bad Request` and the
unescaped body; a plain 200 XML response returns raw and parsed body,
and an empty 200 body parses to no data. -/
theorem makeFeedRequest_response_handling_witness :
    handleFeedResponse (fun l => l) (fun _ => chars "Bad Request") 200
        (chars "text/html; charset=utf-8") (chars "<html></html>") =
      .error (chars "Sheet is private. Use authentication or make public.") ∧
    handleFeedResponse (fun l => l) (fun _ => chars "Bad Request") 401
        (chars "application/atom+xml") (chars "") =
      .error (chars "Invalid authorization key.") ∧
    handleFeedResponse (fun l => l) (fun _ => chars "Bad Request") 400
        (chars "application/atom+xml") (chars "bad &quot;x&quot;") =
      .error (chars "HTTP error 400 (Bad Request) - bad \"x\"") ∧
    handleFeedResponse (fun l => l) (fun _ => chars "Bad Request") 200
        (chars "application/atom+xml") (chars "<feed/>") =
      .ok (chars "<feed/>", some (chars "<feed/>")) ∧
    handleFeedResponse (fun l => l) (fun _ => chars "Bad Request") 200
        (chars "application/atom+xml") (chars "") =
      .ok (chars "", none) := by
  have h200 := (makeFeedRequest_response_handling (fun l : List Char => l)
    (fun _ => chars "Bad Request") 200 (chars "text/html; charset=utf-8")
    (chars "<html></html>")).1 rfl (by decide)
  have h401 := (makeFeedRequest_response_handling (fun l : List Char => l)
    (fun _ => chars "Bad Request") 401 (chars "application/atom+xml") (chars "")).2.1 rfl
  have h400 := (makeFeedRequest_response_handling (fun l : List Char => l)
    (fun _ => chars "Bad Request") 400 (chars "application/atom+xml")
    (chars "bad &quot;x&quot;")).2.2.1 (by decide) (by decide) (by omega)
  have hok := (makeFeedRequest_response_handling (fun l : List Char => l)
    (fun _ => chars "Bad Request") 200 (chars "application/atom+xml")
    (chars "<feed/>")).2.2.2 (by decide) (by omega)
  have hempty := (makeFeedRequest_response_handling (fun l : List Char => l)
    (fun _ => chars "Bad Request") 200 (chars "application/atom+xml")
    (chars "")).2.2.2 (by decide) (by omega)
  refine ⟨h200, h401, ?_, ?_, ?_⟩
  · rw [h400]; rfl
  · rw [hok]; rfl
  · rw [hempty]; rfl

/-! ## Visibility and projection defaults (GoogleSpreadsheet.setAuthAndDependencies) -/

/-- C3 counterexample: constructing with a credential and the explicit
visibility option `private` (the enum member, numeric value 1, truthy)
yields visibility `public` — `setAuthAndDependencies` only skips the
credential-based default when the option is truthy and never installs
the option's own value, so the explicit override does not win as the
claim requires. -/
theorem explicit_visibility_override_ignored :
    constructGoogleSpreadsheet (chars "KEY") (.jstr (chars "token"))
        { visibility := .jnum 1, projection := .undef } =
      .ok { googleAuth := .jstr (chars "token"),
            visibility := .pub,
            projection := .full,
            authMode := .anonymous,
            options := { visibility := .jnum 1, projection := .undef } } ∧
    GoogleSpreadsheetVisibility.pub ≠ GoogleSpreadsheetVisibility.priv := by
  exact ⟨rfl, by decide⟩

/-- Invariant preservation: one `setAuthToken` call keeps the
characterization of visibility and projection, rebased on the new
credential. -/
theorem setAuthToken_invariant (st : GSState) (a : JsVal)
    (hv : st.visibility =
      (if truthy st.options.visibility then .pub
       else if truthy st.googleAuth then .priv else .pub))
    (hp : st.projection =
      (if truthy st.options.projection then .values
       else if truthy st.googleAuth then .full else .values)) :
    (setAuthToken st a).options = st.options ∧
    (setAuthToken st a).googleAuth = a ∧
    (setAuthToken st a).visibility =
      (if truthy st.options.visibility then .pub
       else if truthy a then .priv else .pub) ∧
    (setAuthToken st a).projection =
      (if truthy st.options.projection then .values
       else if truthy a then .full else .values) := by
  by_cases h1 : truthy st.options.visibility <;>
    by_cases h2 : truthy st.options.projection <;>
      simp [setAuthToken, setAuthAndDependencies, h1, h2, hv, hp]

/-- Invariant over any sequence of `setAuthToken` calls. -/
theorem foldl_setAuthToken_invariant (updates : List JsVal) :
    ∀ st : GSState,
      st.visibility =
        (if truthy st.options.visibility then .pub
         else if truthy st.googleAuth then .priv else .pub) →
      st.projection =
        (if truthy st.options.projection then .values
         else if truthy st.googleAuth then .full else .values) →
      (updates.foldl setAuthToken st).options = st.options ∧
      (updates.foldl setAuthToken st).visibility =
        (if truthy st.options.visibility then .pub
         else if truthy (updates.foldl setAuthToken st).googleAuth then .priv
         else .pub) ∧
      (updates.foldl setAuthToken st).projection =
        (if truthy st.options.projection then .values
         else if truthy (updates.foldl setAuthToken st).googleAuth then .full
         else .values) := by
  induction updates with
  | nil => intro st hv hp; exact ⟨rfl, hv, hp⟩
  | cons a t ih =>
    intro st hv hp
    have h1 := setAuthToken_invariant st a hv hp
    have h2 := ih (setAuthToken st a)
      (by rw [h1.2.2.1, h1.1, h1.2.1]) (by rw [h1.2.2.2, h1.1, h1.2.1])
    rw [List.foldl_cons]
    refine ⟨by rw [h2.1, h1.1], ?_, ?_⟩
    · rw [h2.2.1, h1.1]
    · rw [h2.2.2, h1.1]

/-- The state built by the constructor satisfies the characterization. -/
theorem constructGoogleSpreadsheet_invariant (key : List Char) (authID : JsVal)
    (opts : GSOptions) (st : GSState)
    (hst : constructGoogleSpreadsheet key authID opts = .ok st) :
    st.options = opts ∧ st.googleAuth = authID ∧
    st.visibility =
      (if truthy opts.visibility then .pub
       else if truthy authID then .priv else .pub) ∧
    st.projection =
      (if truthy opts.projection then .values
       else if truthy authID then .full else .values) := by
  rw [constructGoogleSpreadsheet] at hst
  by_cases hk : key = []
  · rw [if_pos hk] at hst; exact absurd hst (by simp)
  · rw [if_neg hk] at hst
    have h2 : st = setAuthAndDependencies (initialGSState opts) authID := by
      cases hst; rfl
    subst h2
    by_cases h1 : truthy opts.visibility <;>
      by_cases h3 : truthy opts.projection <;>
        simp [setAuthAndDependencies, initialGSState, h1, h3]

/-- C3 amended: across construction and any sequence of `setAuthToken`
calls, whenever the corresponding constructor option is falsy (absent,
or a falsy explicit value such as the enum member `public` = 0 or
`full` = 0) the field follows the credential — visibility `private` and
projection `full` when a credential is present, `public` and `values`
when not; a truthy explicit option merely blocks that recomputation and
leaves the field at its initial default (`public`, `values`
respectively): the explicitly supplied value itself is never installed,
so an explicit override only takes effect when it coincides with those
constants. -/
theorem visibility_projection_characterization (key : List Char) (authID : JsVal)
    (opts : GSOptions) (updates : List JsVal) (st : GSState)
    (hst : constructGoogleSpreadsheet key authID opts = .ok st) :
    (updates.foldl setAuthToken st).visibility =
      (if truthy opts.visibility then .pub
       else if truthy (updates.foldl setAuthToken st).googleAuth then .priv
       else .pub) ∧
    (updates.foldl setAuthToken st).projection =
      (if truthy opts.projection then .values
       else if truthy (updates.foldl setAuthToken st).googleAuth then .full
       else .values) := by
  have h0 := constructGoogleSpreadsheet_invariant key authID opts st hst
  have h1 := foldl_setAuthToken_invariant updates st
    (by rw [h0.2.2.1, h0.1, h0.2.1]) (by rw [h0.2.2.2, h0.1, h0.2.1])
  exact ⟨by rw [h1.2.1, h0.1], by rw [h1.2.2, h0.1]⟩

/-- C3 amended witness: construction with credential `"token"` and no
explicit options, followed by `setAuthToken(undefined)` then
`setAuthToken("token2")`: after the sequence the credential is present
and visibility/projection are `private`/`full`, as the characterization
states. -/
theorem visibility_projection_characterization_witness :
    ([JsVal.undef, JsVal.jstr (chars "token2")].foldl setAuthToken
        (setAuthAndDependencies (initialGSState defaultGSOptions)
          (.jstr (chars "token")))).visibility = .priv ∧
    ([JsVal.undef, JsVal.jstr (chars "token2")].foldl setAuthToken
        (setAuthAndDependencies (initialGSState defaultGSOptions)
          (.jstr (chars "token")))).projection = .full := by
  have h := visibility_projection_characterization (chars "KEY")
    (.jstr (chars "token")) defaultGSOptions [JsVal.undef, JsVal.jstr (chars "token2")]
    (setAuthAndDependencies (initialGSState defaultGSOptions) (.jstr (chars "token")))
    (by rw [constructGoogleSpreadsheet, if_neg (by decide)])
  refine ⟨?_, ?_⟩
  · rw [h.1]; decide
  · rw [h.2]; decide
